import Mathlib

/-!
Shallow embedding of `fastapi_errors/errors.py`.

The repository is a thin adapter converting typed application errors into
HTTP responses (Request Error family, `BaseHTTPError`) or WebSocket close
signals (Connection Error family, `BaseWebSocketError`), plus a registrar
(`register_errors`) binding error types to handlers in a Starlette app.

Modelling choices:
* A Python error *class* becomes an `ErrorClass` record carrying the
  class-level attributes of both families together with two Boolean
  subclass flags (`isHTTP`, `isWS`), so that multiple inheritance —
  a class deriving from both bases — and foreign exception classes
  (both flags false) are representable.  `isinstance(e, BaseXError)`
  becomes a flag test on the instance's class.
* A Python exception *instance* becomes an `ExcInstance α`: its class plus
  the `**context` keyword arguments stored verbatim by
  `BaseHTTPError.__init__` as an association list; the value type `α`
  stays abstract, mirroring `Any`.
* The overridable async `hook` methods are modelled as class-level
  functions returning the list of (opaque, string-labelled) side effects
  the hook performs; the default no-op hook returns `[]`.
* The two async handlers run in a writer/except monad `HM ev eps`:
  the writer part records the ordered trace of observable events
  (hook awaited, hook side effects, response emitted, exception raised),
  the except part is Python exception propagation.  `TypeError` is
  modelled by its message string; the Starlette `WebSocketException`
  raised by the websocket handler is the `WsRaise.wsException` case.
* `app.add_exception_handler` is modelled as appending the pair
  (error class, handler kind) to a registration list; a fresh closure of
  `create_http_error_handler` / `create_websocket_error_handler` is
  denoted by its `HandlerKind`.  `register_errors` returns the final list
  together with the `TypeError` message if it raised one, the list at that
  point reflecting the registrations already performed.
-/

/-- `ERROR_TYPE_HEADER = "X-Error-Type"` (errors.py line 9). -/
def ERROR_TYPE_HEADER : String := "X-Error-Type"

/-- The originating request object; opaque to this library, so only an
identity is modelled. -/
structure Request where
  id : Nat
deriving DecidableEq, Repr

/-- The originating websocket connection object; opaque to this library. -/
structure WebSocket where
  id : Nat
deriving DecidableEq, Repr

/-- A value of the dictionary returned by `to_dict`: the `"message"` key maps
to a string, the `"context"` key to the nested kwargs mapping. -/
inductive DictVal (α : Type) where
  | str : String → DictVal α
  | dict : List (String × α) → DictVal α
deriving DecidableEq, Repr

/-- A Python error class: the class-level attributes of both error families,
plus subclass flags for `BaseHTTPError` and `BaseWebSocketError`.
`status_code`, `message`, `hookHTTP` are meaningful when `isHTTP`;
`code`, `reason`, `hookWS` when `isWS`.  `reason` defaults to `none`,
mirroring `reason: ClassVar[Optional[str]] = None` (errors.py line 62).
A hook is modelled by the list of opaque side effects it performs on the
given request/connection; the default hook performs none. -/
structure ErrorClass where
  name : String
  isHTTP : Bool := false
  isWS : Bool := false
  status_code : Nat := 0
  message : String := ""
  hookHTTP : Request → List String := fun _ => []
  code : Nat := 0
  reason : Option String := none
  hookWS : WebSocket → List String := fun _ => []

/-- A Python exception instance: its class and the `**context` kwargs stored
by `BaseHTTPError.__init__` (empty for non-HTTP exceptions, which have no
such attribute). -/
structure ExcInstance (α : Type) where
  cls : ErrorClass
  context : List (String × α)

/-- `BaseHTTPError.__init__(self, **context)` (errors.py lines 16-18):
construction stores the keyword arguments verbatim as `self.context`. -/
def BaseHTTPError_init (cls : ErrorClass) (context : List (String × α)) :
    ExcInstance α :=
  ⟨cls, context⟩

/-- The `name` property: `self.__class__.__name__` (errors.py lines 26-28,
64-66; identical in both families). -/
def ExcInstance.name (e : ExcInstance α) : String :=
  e.cls.name

/-- `BaseHTTPError.to_dict` (errors.py lines 30-34). -/
def ExcInstance.to_dict (e : ExcInstance α) : List (String × DictVal α) :=
  [("message", DictVal.str e.cls.message),
   ("context", DictVal.dict e.context)]

/-- The response produced by `JSONResponse(...)`: body, status code and the
headers passed explicitly (the host framework may add further transport
headers; those are outside this library). -/
structure Response (α : Type) where
  body : List (String × DictVal α)
  status_code : Nat
  headers : List (String × String)
deriving DecidableEq, Repr

/-- `BaseHTTPError.to_response` (errors.py lines 36-43).  The `request`
argument is accepted and ignored, as in the source. -/
def ExcInstance.to_response (e : ExcInstance α) (_request : Request) :
    Response α :=
  { body := e.to_dict
    status_code := e.cls.status_code
    headers := [(ERROR_TYPE_HEADER, e.name)] }

/-- Writer/except monad for handler runs: the ordered trace of events of
type `ev`, and either a raised exception `eps` or a result. -/
def HM (ev : Type) (eps : Type) (τ : Type) : Type :=
  List ev × Except eps τ

def HM.pure (a : τ) : HM ev eps τ :=
  ([], Except.ok a)

def HM.bind (x : HM ev eps σ) (f : σ → HM ev eps τ) : HM ev eps τ :=
  match x with
  | (tr, Except.error e) => (tr, Except.error e)
  | (tr, Except.ok a) =>
    match f a with
    | (tr2, r) => (tr ++ tr2, r)

instance : Monad (HM ev eps) where
  pure := HM.pure
  bind := HM.bind

/-- Raising a Python exception: the run stops with the given trace events
and the raised value. -/
def HM.raise (e : eps) (evs : List ev) : HM ev eps τ :=
  (evs, Except.error e)

/-- A run step that only emits trace events. -/
def HM.emit (evs : List ev) : HM ev eps Unit :=
  (evs, Except.ok ())

/-- Observable events of one HTTP handler run. -/
inductive HttpEvent (α : Type) where
  | hookCalled : HttpEvent α
  | hookEffect : String → HttpEvent α
  | respond : Response α → HttpEvent α
  | raiseTypeError : String → HttpEvent α
deriving DecidableEq, Repr

/-- The `TypeError` message of the HTTP handler (errors.py line 52). -/
def http_type_error_msg (n : String) : String :=
  "Exception `" ++ n ++ "` should be derived from `BaseHTTPError`"

/-- `await error.hook(request)` for the HTTP family (errors.py lines 45-46
declare the default; subclasses may override): awaiting the hook emits the
hook-called marker followed by the hook's side effects. -/
def ExcInstance.awaitHookHTTP (e : ExcInstance α) (request : Request) :
    HM (HttpEvent α) String Unit :=
  HM.emit ([HttpEvent.hookCalled] ++
    (e.cls.hookHTTP request).map HttpEvent.hookEffect)

/-- The inner `handle_error` of `create_http_error_handler`
(errors.py lines 49-57): type-check, await the hook, return the response. -/
def http_handle_error (request : Request) (error : ExcInstance α) :
    HM (HttpEvent α) String (Response α) := do
  if !error.cls.isHTTP then
    HM.raise (http_type_error_msg error.name)
      [HttpEvent.raiseTypeError (http_type_error_msg error.name)]
  error.awaitHookHTTP request
  let resp := error.to_response request
  HM.emit [HttpEvent.respond resp]
  HM.pure resp

/-- Observable events of one websocket handler run. -/
inductive WsEvent where
  | hookCalled : WsEvent
  | hookEffect : String → WsEvent
  | closeSignal : Nat → Option String → WsEvent
  | raiseTypeError : String → WsEvent
deriving DecidableEq, Repr

/-- What a websocket handler run raises: a `TypeError` (by message) or a
Starlette `WebSocketException` carrying close code and optional reason. -/
inductive WsRaise where
  | typeError : String → WsRaise
  | wsException : Nat → Option String → WsRaise
deriving DecidableEq, Repr

/-- The `TypeError` message of the websocket handler (errors.py lines 81-83). -/
def websocket_type_error_msg (n : String) : String :=
  "Exception `" ++ n ++ "` should be derived from `BaseWebSocketError`"

/-- `await error.hook(websocket)` for the websocket family (errors.py
lines 74-75 declare the default; subclasses may override). -/
def ExcInstance.awaitHookWS (e : ExcInstance α) (websocket : WebSocket) :
    HM WsEvent WsRaise Unit :=
  HM.emit ([WsEvent.hookCalled] ++
    (e.cls.hookWS websocket).map WsEvent.hookEffect)

/-- The inner `handle_error` of `create_websocket_error_handler`
(errors.py lines 78-88): type-check, await the hook, raise
`WebSocketException(code=error.code, reason=error.reason)`.  The run never
produces a normal value: the `Unit` result is unreachable. -/
def websocket_handle_error (websocket : WebSocket) (error : ExcInstance α) :
    HM WsEvent WsRaise Unit := do
  if !error.cls.isWS then
    HM.raise (WsRaise.typeError (websocket_type_error_msg error.name))
      [WsEvent.raiseTypeError (websocket_type_error_msg error.name)]
  error.awaitHookWS websocket
  HM.raise (WsRaise.wsException error.cls.code error.cls.reason)
    [WsEvent.closeSignal error.cls.code error.cls.reason]

/-- Which factory built the handler bound for an error class; each
registration calls the factory anew, so each entry denotes a fresh closure
of the corresponding factory. -/
inductive HandlerKind where
  | http : HandlerKind
  | ws : HandlerKind
deriving DecidableEq, Repr

/-- The `TypeError` message of `register_errors` (errors.py lines 104-107);
the backtick after the class name is missing in the source f-string and is
reproduced faithfully here. -/
def register_type_error_msg (n : String) : String :=
  "Exception `" ++ n ++ " should be derived from either " ++
    "`BaseHTTPError` or `BaseWebSocketError`"

/-- `register_errors(app, error_classes)` (errors.py lines 91-107).  The
app's exception-handler table is the list of `add_exception_handler` calls
performed so far; the result is the table after the run together with the
`TypeError` message if the run raised (the table then holds exactly the
registrations made before the raise).  The Python function returns `None`;
its only effect is the table mutation modelled here. -/
def register_errors :
    List (ErrorClass × HandlerKind) → List ErrorClass →
      List (ErrorClass × HandlerKind) × Option String
  | app, [] => (app, none)
  | app, c :: rest =>
    if c.isHTTP then
      register_errors (app ++ [(c, HandlerKind.http)]) rest
    else if c.isWS then
      register_errors (app ++ [(c, HandlerKind.ws)]) rest
    else
      (app, some (register_type_error_msg c.name))

/-! ### Characterization lemmas (shared helpers) -/

theorem http_handle_error_of_isHTTP (request : Request) (error : ExcInstance α)
    (h : error.cls.isHTTP = true) :
    http_handle_error request error =
      ([HttpEvent.hookCalled] ++
         (error.cls.hookHTTP request).map HttpEvent.hookEffect ++
         [HttpEvent.respond (error.to_response request)],
       Except.ok (error.to_response request)) := by
  simp [http_handle_error, h, instMonadHM, Bind.bind, Pure.pure, HM.bind,
    HM.emit, HM.pure, ExcInstance.awaitHookHTTP]

theorem http_handle_error_of_not_isHTTP (request : Request)
    (error : ExcInstance α) (h : error.cls.isHTTP = false) :
    http_handle_error request error =
      ([HttpEvent.raiseTypeError (http_type_error_msg error.name)],
       Except.error (http_type_error_msg error.name)) := by
  simp [http_handle_error, h, instMonadHM, Bind.bind, Pure.pure, HM.bind,
    HM.emit, HM.pure, HM.raise, ExcInstance.awaitHookHTTP]

theorem websocket_handle_error_of_isWS (websocket : WebSocket)
    (error : ExcInstance α) (h : error.cls.isWS = true) :
    websocket_handle_error websocket error =
      ([WsEvent.hookCalled] ++
         (error.cls.hookWS websocket).map WsEvent.hookEffect ++
         [WsEvent.closeSignal error.cls.code error.cls.reason],
       Except.error (WsRaise.wsException error.cls.code error.cls.reason)) := by
  simp [websocket_handle_error, h, instMonadHM, Bind.bind, Pure.pure, HM.bind,
    HM.emit, HM.pure, HM.raise, ExcInstance.awaitHookWS]

theorem websocket_handle_error_of_not_isWS (websocket : WebSocket)
    (error : ExcInstance α) (h : error.cls.isWS = false) :
    websocket_handle_error websocket error =
      ([WsEvent.raiseTypeError (websocket_type_error_msg error.name)],
       Except.error (WsRaise.typeError (websocket_type_error_msg error.name))) := by
  simp [websocket_handle_error, h, instMonadHM, Bind.bind, Pure.pure, HM.bind,
    HM.emit, HM.pure, HM.raise, ExcInstance.awaitHookWS]

/-! ### Claim theorems -/

/-- C1: for every concrete Request Error instance constructed with keyword
context arguments, `to_dict()` is exactly the two-key dictionary
`message ↦ class-level message, context ↦ constructor kwargs`, whatever the
kwargs were, with no other top-level key. -/
theorem BaseHTTPError_to_dict_spec {α : Type} (cls : ErrorClass)
    (kwargs : List (String × α)) (h : cls.isHTTP = true) :
    (BaseHTTPError_init cls kwargs).to_dict =
      [("message", DictVal.str cls.message),
       ("context", DictVal.dict kwargs)] ∧
    ((BaseHTTPError_init cls kwargs).to_dict).map Prod.fst =
      ["message", "context"] :=
  ⟨rfl, rfl⟩

/-- C2: for every concrete Request Error instance, the built response has the
class-level status code, body `to_dict()`, and an `X-Error-Type` header whose
value is the concrete type name. -/
theorem BaseHTTPError_to_response_spec {α : Type} (e : ExcInstance α)
    (r : Request) (h : e.cls.isHTTP = true) :
    (e.to_response r).status_code = e.cls.status_code ∧
    (e.to_response r).body = e.to_dict ∧
    (ERROR_TYPE_HEADER, e.cls.name) ∈ (e.to_response r).headers :=
  ⟨rfl, rfl, by simp [ExcInstance.to_response, ExcInstance.name]⟩

/-- C3: the registrar processes the input types in order without
deduplication, appending for each type one binding to a handler built by the
request-handler factory if the type is in the Request Error family, else by
the connection-handler factory; it appends exactly these entries and raises
nothing. -/
theorem register_errors_binds_in_order (app : List (ErrorClass × HandlerKind))
    (classes : List ErrorClass)
    (h : ∀ c ∈ classes, c.isHTTP = true ∨ c.isWS = true) :
    register_errors app classes =
      (app ++ classes.map
        (fun c => (c, if c.isHTTP = true then HandlerKind.http
                      else HandlerKind.ws)),
       none) := by
  induction classes generalizing app with
  | nil => simp [register_errors]
  | cons c rest ih =>
    have hc := h c (by simp)
    have hrest : ∀ d ∈ rest, d.isHTTP = true ∨ d.isWS = true := by
      intro d hd
      exact h d (by simp [hd])
    by_cases hch : c.isHTTP = true
    · simp only [register_errors, hch, if_true]
      rw [ih _ hrest]
      simp [hch]
    · have hcw : c.isWS = true := hc.resolve_left hch
      have hchf : c.isHTTP = false := by simpa using hch
      simp only [register_errors, hchf, hcw, Bool.false_eq_true, if_false,
        if_true]
      rw [ih _ hrest]
      simp [hchf]

/-- C4: the request handler, given an exception outside the Request Error
family, raises a `TypeError` (never returning a response), and the error's
hook is not awaited. -/
theorem http_handler_rejects_foreign_exception {α : Type} (r : Request)
    (e : ExcInstance α) (h : e.cls.isHTTP = false) :
    (http_handle_error r e).2 =
      Except.error (http_type_error_msg e.name) ∧
    (∀ resp : Response α,
      (http_handle_error r e).2 ≠ Except.ok resp) ∧
    (∀ resp : Response α,
      HttpEvent.respond resp ∉ (http_handle_error r e).1) ∧
    HttpEvent.hookCalled ∉ (http_handle_error r e).1 := by
  rw [http_handle_error_of_not_isHTTP r e h]
  simp

/-- C5: the websocket handler, given an exception outside the Connection
Error family, raises a `TypeError` and does not trigger connection
closure. -/
theorem websocket_handler_rejects_foreign_exception {α : Type}
    (w : WebSocket) (e : ExcInstance α) (h : e.cls.isWS = false) :
    (websocket_handle_error w e).2 =
      Except.error (WsRaise.typeError (websocket_type_error_msg e.name)) ∧
    (∀ (c : Nat) (rs : Option String),
      (websocket_handle_error w e).2 ≠
        Except.error (WsRaise.wsException c rs)) ∧
    (∀ (c : Nat) (rs : Option String),
      WsEvent.closeSignal c rs ∉ (websocket_handle_error w e).1) := by
  rw [websocket_handle_error_of_not_isWS w e h]
  simp

/-- Helper: running the registrar over a prefix of types that all belong to
one of the two families appends their bindings and continues with the rest. -/
theorem register_errors_append_of_family (pre : List ErrorClass) :
    ∀ (app : List (ErrorClass × HandlerKind)) (rest : List ErrorClass),
      (∀ d ∈ pre, d.isHTTP = true ∨ d.isWS = true) →
      register_errors app (pre ++ rest) =
        register_errors
          (app ++ pre.map
            (fun d => (d, if d.isHTTP = true then HandlerKind.http
                          else HandlerKind.ws)))
          rest := by
  induction pre with
  | nil =>
    intro app rest _
    simp
  | cons d ds ih =>
    intro app rest hpre
    have hd := hpre d (by simp)
    have hds : ∀ x ∈ ds, x.isHTTP = true ∨ x.isWS = true := by
      intro x hx
      exact hpre x (by simp [hx])
    by_cases hdh : d.isHTTP = true
    · simp only [List.cons_append, register_errors, hdh, if_true,
        List.append_eq]
      rw [ih _ _ hds]
      simp [hdh]
    · have hdw : d.isWS = true := hd.resolve_left hdh
      have hdf : d.isHTTP = false := by simpa using hdh
      simp only [List.cons_append, register_errors, hdf, hdw,
        Bool.false_eq_true, if_false, if_true, List.append_eq]
      rw [ih _ _ hds]
      simp [hdf]

/-- C6: the registrar, on a type of neither family, raises a `TypeError`
whose message names the offending type name and both valid family names;
the entries for the types before it in the input have already been
registered when it raises. -/
theorem register_errors_raises_on_neither_family
    (app : List (ErrorClass × HandlerKind)) (pre : List ErrorClass)
    (c : ErrorClass) (post : List ErrorClass)
    (hpre : ∀ d ∈ pre, d.isHTTP = true ∨ d.isWS = true)
    (h1 : c.isHTTP = false) (h2 : c.isWS = false) :
    register_errors app (pre ++ c :: post) =
      (app ++ pre.map
        (fun d => (d, if d.isHTTP = true then HandlerKind.http
                      else HandlerKind.ws)),
       some (register_type_error_msg c.name)) ∧
    register_type_error_msg c.name =
      "Exception `" ++ c.name ++
        " should be derived from either `BaseHTTPError` or `BaseWebSocketError`" := by
  constructor
  · rw [register_errors_append_of_family pre app (c :: post) hpre]
    simp [register_errors, h1, h2]
  · simp only [register_type_error_msg]
    rw [String.append_assoc]
    rfl

/-- C7: the websocket handler, on a Connection Error instance, awaits the
hook and then raises the closure signal carrying exactly the class-level
close code and the class-level optional reason; it never returns a normal
value and its trace holds no response event. -/
theorem websocket_handler_signals_declared_close {α : Type}
    (w : WebSocket) (e : ExcInstance α) (h : e.cls.isWS = true) :
    (websocket_handle_error w e).1 =
      [WsEvent.hookCalled] ++ (e.cls.hookWS w).map WsEvent.hookEffect ++
        [WsEvent.closeSignal e.cls.code e.cls.reason] ∧
    (websocket_handle_error w e).2 =
      Except.error (WsRaise.wsException e.cls.code e.cls.reason) ∧
    (∀ u : Unit, (websocket_handle_error w e).2 ≠ Except.ok u) := by
  rw [websocket_handle_error_of_isWS w e h]
  simp

/-- C8: each handler, on every invocation, first type-checks the error
against its family (raising a `TypeError` and doing nothing else on
mismatch), then awaits the error's hook, then performs the family-specific
terminal action (return the built response / raise the closure signal),
in that order and with no other events. -/
theorem handlers_step_order {α : Type} (r : Request) (w : WebSocket)
    (e : ExcInstance α) :
    http_handle_error r e =
      (if e.cls.isHTTP = true then
        ([HttpEvent.hookCalled] ++
           (e.cls.hookHTTP r).map HttpEvent.hookEffect ++
           [HttpEvent.respond (e.to_response r)],
         Except.ok (e.to_response r))
       else
        ([HttpEvent.raiseTypeError (http_type_error_msg e.name)],
         Except.error (http_type_error_msg e.name))) ∧
    websocket_handle_error w e =
      (if e.cls.isWS = true then
        ([WsEvent.hookCalled] ++
           (e.cls.hookWS w).map WsEvent.hookEffect ++
           [WsEvent.closeSignal e.cls.code e.cls.reason],
         Except.error (WsRaise.wsException e.cls.code e.cls.reason))
       else
        ([WsEvent.raiseTypeError (websocket_type_error_msg e.name)],
         Except.error
           (WsRaise.typeError (websocket_type_error_msg e.name)))) := by
  constructor
  · by_cases h : e.cls.isHTTP = true
    · rw [if_pos h, http_handle_error_of_isHTTP r e h]
    · rw [if_neg h, http_handle_error_of_not_isHTTP r e (by simpa using h)]
  · by_cases h : e.cls.isWS = true
    · rw [if_pos h, websocket_handle_error_of_isWS w e h]
    · rw [if_neg h, websocket_handle_error_of_not_isWS w e (by simpa using h)]

/-- C9: with the default no-op hooks, handling is deterministic — the whole
observable run of either handler (trace and outcome: status code, body and
header for the request family; close code and reason for the connection
family) is the same function of the error value alone, for any originating
request/connection. -/
theorem handlers_deterministic_outward_signal {α : Type}
    (e f : ExcInstance α) (r1 r2 : Request) (w1 w2 : WebSocket)
    (h1 : e.cls.isHTTP = true) (he : e.cls.hookHTTP = fun _ => [])
    (h2 : f.cls.isWS = true) (hf : f.cls.hookWS = fun _ => []) :
    http_handle_error r1 e = http_handle_error r2 e ∧
    websocket_handle_error w1 f = websocket_handle_error w2 f := by
  constructor
  · rw [http_handle_error_of_isHTTP r1 e h1,
      http_handle_error_of_isHTTP r2 e h1, he]
    simp [ExcInstance.to_response]
  · rw [websocket_handle_error_of_isWS w1 f h2,
      websocket_handle_error_of_isWS w2 f h2, hf]

/-- C10: a type belonging to both families is bound by the registrar to the
request (HTTP) handler, because the Request Error family check comes first;
the registrar step for it never consults the connection handler. -/
theorem register_errors_prefers_http_on_both_families
    (app : List (ErrorClass × HandlerKind)) (c : ErrorClass)
    (rest : List ErrorClass) (h1 : c.isHTTP = true) (h2 : c.isWS = true) :
    register_errors app (c :: rest) =
      register_errors (app ++ [(c, HandlerKind.http)]) rest := by
  simp [register_errors, h1]

/-! ### Concrete sample classes and instances for witnesses -/

def req0 : Request := ⟨0⟩

def ws0 : WebSocket := ⟨0⟩

/-- A concrete Request Error class, as `AuthorizationError` in the tests. -/
def sampleHTTPClass : ErrorClass :=
  { name := "AuthorizationError"
    isHTTP := true
    status_code := 401
    message := "Failed to authorize" }

/-- A concrete Connection Error class with a declared reason. -/
def sampleWSClass : ErrorClass :=
  { name := "ChatClosedError"
    isWS := true
    code := 1008
    reason := some "policy violation" }

/-- A foreign exception class belonging to neither family. -/
def sampleOtherClass : ErrorClass :=
  { name := "ValueError" }

/-- A class deriving from both error families. -/
def sampleBothClass : ErrorClass :=
  { name := "HybridError"
    isHTTP := true
    isWS := true
    status_code := 500
    message := "Hybrid"
    code := 1011 }

def sampleHTTPError : ExcInstance String :=
  BaseHTTPError_init sampleHTTPClass [("reason", "no token")]

def sampleWSError : ExcInstance String := ⟨sampleWSClass, []⟩

def sampleOtherError : ExcInstance String := ⟨sampleOtherClass, []⟩

/-! ### Witnesses -/

/-- Witness for C1 at `AuthorizationError(reason="no token")`. -/
theorem BaseHTTPError_to_dict_spec_witness :
    sampleHTTPClass.isHTTP = true ∧
    ((BaseHTTPError_init sampleHTTPClass [("reason", "no token")]).to_dict =
       [("message", DictVal.str "Failed to authorize"),
        ("context", DictVal.dict [("reason", "no token")])] ∧
     ((BaseHTTPError_init sampleHTTPClass
        [("reason", "no token")]).to_dict).map Prod.fst =
       ["message", "context"]) :=
  ⟨rfl, BaseHTTPError_to_dict_spec sampleHTTPClass [("reason", "no token")] rfl⟩

/-- Witness for C2 at `AuthorizationError(reason="no token")`. -/
theorem BaseHTTPError_to_response_spec_witness :
    sampleHTTPError.cls.isHTTP = true ∧
    ((sampleHTTPError.to_response req0).status_code = 401 ∧
     (sampleHTTPError.to_response req0).body = sampleHTTPError.to_dict ∧
     ("X-Error-Type", "AuthorizationError") ∈
       (sampleHTTPError.to_response req0).headers) :=
  ⟨rfl, BaseHTTPError_to_response_spec sampleHTTPError req0 rfl⟩

/-- Witness for C3 on the input `[AuthorizationError, ChatClosedError]`. -/
theorem register_errors_binds_in_order_witness :
    (∀ c ∈ [sampleHTTPClass, sampleWSClass],
      c.isHTTP = true ∨ c.isWS = true) ∧
    register_errors [] [sampleHTTPClass, sampleWSClass] =
      ([(sampleHTTPClass, HandlerKind.http),
        (sampleWSClass, HandlerKind.ws)], none) := by
  have hfam : ∀ c ∈ [sampleHTTPClass, sampleWSClass],
      c.isHTTP = true ∨ c.isWS = true := by
    intro c hc
    rcases List.mem_cons.mp hc with rfl | hc2
    · exact Or.inl rfl
    rcases List.mem_cons.mp hc2 with rfl | hc3
    · exact Or.inr rfl
    · exact absurd hc3 (List.not_mem_nil c)
  exact ⟨hfam,
    register_errors_binds_in_order [] [sampleHTTPClass, sampleWSClass] hfam⟩

/-- Witness for C4 at a `ValueError` passed to the request handler. -/
theorem http_handler_rejects_foreign_exception_witness :
    sampleOtherError.cls.isHTTP = false ∧
    ((http_handle_error req0 sampleOtherError).2 =
       Except.error
         "Exception `ValueError` should be derived from `BaseHTTPError`" ∧
     (∀ resp : Response String,
       (http_handle_error req0 sampleOtherError).2 ≠ Except.ok resp) ∧
     (∀ resp : Response String,
       HttpEvent.respond resp ∉ (http_handle_error req0 sampleOtherError).1) ∧
     HttpEvent.hookCalled ∉ (http_handle_error req0 sampleOtherError).1) :=
  ⟨rfl, http_handler_rejects_foreign_exception req0 sampleOtherError rfl⟩

/-- Witness for C5 at a `ValueError` passed to the websocket handler. -/
theorem websocket_handler_rejects_foreign_exception_witness :
    sampleOtherError.cls.isWS = false ∧
    ((websocket_handle_error ws0 sampleOtherError).2 =
       Except.error (WsRaise.typeError
         "Exception `ValueError` should be derived from `BaseWebSocketError`") ∧
     (∀ (c : Nat) (rs : Option String),
       (websocket_handle_error ws0 sampleOtherError).2 ≠
         Except.error (WsRaise.wsException c rs)) ∧
     (∀ (c : Nat) (rs : Option String),
       WsEvent.closeSignal c rs ∉
         (websocket_handle_error ws0 sampleOtherError).1)) :=
  ⟨rfl, websocket_handler_rejects_foreign_exception ws0 sampleOtherError rfl⟩

/-- Witness for C6: registering `[AuthorizationError, ValueError,
ChatClosedError]` registers the first, then raises naming `ValueError` and
both base class names. -/
theorem register_errors_raises_on_neither_family_witness :
    (∀ d ∈ [sampleHTTPClass], d.isHTTP = true ∨ d.isWS = true) ∧
    sampleOtherClass.isHTTP = false ∧
    sampleOtherClass.isWS = false ∧
    (register_errors []
       ([sampleHTTPClass] ++ sampleOtherClass :: [sampleWSClass]) =
       ([(sampleHTTPClass, HandlerKind.http)],
        some (register_type_error_msg "ValueError")) ∧
     register_type_error_msg "ValueError" =
       "Exception `ValueError should be derived from either `BaseHTTPError` or `BaseWebSocketError`") := by
  have hfam : ∀ d ∈ [sampleHTTPClass], d.isHTTP = true ∨ d.isWS = true := by
    intro d hd
    rcases List.mem_cons.mp hd with rfl | hd2
    · exact Or.inl rfl
    · exact absurd hd2 (List.not_mem_nil d)
  exact ⟨hfam, rfl, rfl,
    register_errors_raises_on_neither_family [] [sampleHTTPClass]
      sampleOtherClass [sampleWSClass] hfam rfl rfl⟩

/-- Witness for C7 at a `ChatClosedError` instance. -/
theorem websocket_handler_signals_declared_close_witness :
    sampleWSError.cls.isWS = true ∧
    ((websocket_handle_error ws0 sampleWSError).1 =
       [WsEvent.hookCalled, WsEvent.closeSignal 1008 (some "policy violation")] ∧
     (websocket_handle_error ws0 sampleWSError).2 =
       Except.error (WsRaise.wsException 1008 (some "policy violation")) ∧
     (∀ u : Unit,
       (websocket_handle_error ws0 sampleWSError).2 ≠ Except.ok u)) :=
  ⟨rfl, websocket_handler_signals_declared_close ws0 sampleWSError rfl⟩

/-- Witness for C9: equal outward runs for two distinct requests and two
distinct connections, with the default no-op hooks. -/
theorem handlers_deterministic_outward_signal_witness :
    (sampleHTTPError.cls.isHTTP = true ∧
     sampleHTTPError.cls.hookHTTP = fun _ => []) ∧
    (sampleWSError.cls.isWS = true ∧
     sampleWSError.cls.hookWS = fun _ => []) ∧
    (http_handle_error req0 sampleHTTPError =
       http_handle_error ⟨1⟩ sampleHTTPError ∧
     websocket_handle_error ws0 sampleWSError =
       websocket_handle_error ⟨1⟩ sampleWSError) :=
  ⟨⟨rfl, rfl⟩, ⟨rfl, rfl⟩,
    handlers_deterministic_outward_signal sampleHTTPError sampleWSError
      req0 ⟨1⟩ ws0 ⟨1⟩ rfl rfl rfl rfl⟩

/-- Witness for C10 at a class deriving from both families. -/
theorem register_errors_prefers_http_on_both_families_witness :
    sampleBothClass.isHTTP = true ∧
    sampleBothClass.isWS = true ∧
    register_errors [] [sampleBothClass] =
      ([(sampleBothClass, HandlerKind.http)], none) :=
  ⟨rfl, rfl,
    register_errors_prefers_http_on_both_families [] sampleBothClass [] rfl rfl⟩
